import Mathlib

/-!
Shallow embedding of the rlox tree-walking interpreter (Rust sources:
src/ast.rs, src/scanner.rs, src/parser.rs, src/interpreter.rs, src/stmt.rs)
and proofs about the claims of the specification.

Modelling conventions, fixed once for the whole file:
* Rust `isize` is modelled as unbounded `Int`.  The model and the machine
  agree only while results stay within the signed 64-bit range (beyond it
  the program wraps in release builds or panics in debug builds), so every
  theorem that asserts an integer arithmetic VALUE carries hypotheses
  confining it to that range; the one explicit machine-width conversion in
  the source, `ii as u32` inside `TokenLiteral::pow`, is modelled
  faithfully as reduction modulo 2^32.
* Rust `f64` is modelled as the exact rationals `Rat`.  The model and IEEE
  agree only at exactly representable values, so theorems assert Float
  VALUES only at such instances (e.g. the quotient `5 / 5`); elsewhere only
  the kind of the result is asserted.  `f64::powf` on a non-integer
  exponent is not rational and is modelled by `powf_model` (no claim
  depends on it).
* `HashMap<String, V>` is modelled as an association list where the leftmost
  binding for a key is the current one; `insert` conses a new binding.
* A Rust panic (`todo!()`, `.expect(..)`) is modelled as `none` in an
  `Option` layer wrapped around the function result; `Result<T, E>` is
  modelled as `Except E T`.
* Fuel parameters make the non-structural recursions (scanner loops, the
  interpreter's `while` and function calls) total; `none` also stands for
  fuel exhaustion, which concrete computations never hit.
-/

namespace RLox

/-- Token kinds, from `enum TokenType` in src/ast.rs. -/
inductive TokenType where
  | LEFT_PAREN | RIGHT_PAREN | LEFT_BRACE | RIGHT_BRACE
  | COMMA | DOT | MINUS | PLUS | SEMICOLON | SLASH | STAR | EXPONENT
  | BANG | BANG_EQUAL | EQUAL | EQUAL_EQUAL
  | GREATER | GREATER_EQUAL | LESS | LESS_EQUAL
  | IDENTIFIER | STRING | NUMBER
  | AND | CLASS | ELSE | FALSE | FUN | FOR | IF | NIL | OR
  | PRINT | RETURN | SUPER | THIS | TRUE | VAR | CONST | WHILE
  | EOF | COMMENT | BLOCK_COMMENT | DUMP
  deriving DecidableEq, Repr

/-- Runtime values, from `enum TokenLiteral` in src/ast.rs
(`isize` as `Int`, `f64` as `Rat`). -/
inductive TokenLiteral where
  | Empty : TokenLiteral
  | Integer : Int → TokenLiteral
  | Float : Rat → TokenLiteral
  | String : String → TokenLiteral
  | Boolean : Bool → TokenLiteral
  deriving DecidableEq, Repr

/-- Parser-level errors, from `enum ParserError` in src/ast.rs. -/
inductive ParserError where
  | UnsupportedAction : ParserError
  | Generic : String → ParserError
  deriving DecidableEq, Repr

/-- Top-level errors, from `enum LoxError` in src/ast.rs. -/
inductive LoxError where
  | InvalidToken : TokenType → Nat → Nat → LoxError
  | RuntimeException : LoxError
  | ExitCode : Int → LoxError
  | ScanError : Char → LoxError
  | ParseError : ParserError → LoxError
  deriving DecidableEq, Repr

/-- Tokens, from `struct Token` in src/ast.rs. -/
structure Token where
  token_type : TokenType
  lexeme : String
  literal : TokenLiteral
  line : Nat
  deriving DecidableEq, Repr

/-- The keyword table `keyword_token_type` of src/ast.rs. -/
def keyword_token_type (ident : String) : Option TokenType :=
  if ident = "and" then some TokenType.AND
  else if ident = "class" then some TokenType.CLASS
  else if ident = "else" then some TokenType.ELSE
  else if ident = "false" then some TokenType.FALSE
  else if ident = "for" then some TokenType.FOR
  else if ident = "fun" then some TokenType.FUN
  else if ident = "if" then some TokenType.IF
  else if ident = "nil" then some TokenType.NIL
  else if ident = "or" then some TokenType.OR
  else if ident = "print" then some TokenType.PRINT
  else if ident = "return" then some TokenType.RETURN
  else if ident = "super" then some TokenType.SUPER
  else if ident = "this" then some TokenType.THIS
  else if ident = "true" then some TokenType.TRUE
  else if ident = "var" then some TokenType.VAR
  else if ident = "const" then some TokenType.CONST
  else if ident = "while" then some TokenType.WHILE
  else if ident = "dump" then some TokenType.DUMP
  else none

/-- Model of the `Display` text of an `f64` (`format` of a Rust float).
`Rat.toString` prints `1` for `1.0` and `3/2` for `1.5`; no claim depends on
the exact text of a Float, only on the structure around it. -/
def displayFloat (q : Rat) : String := toString q

/-- Stringification of a value: `impl Display for TokenLiteral`
in src/ast.rs (Empty prints as the empty string). -/
def displayValue : TokenLiteral → String
  | .Empty => ""
  | .Integer i => toString i
  | .Float f => displayFloat f
  | .String s => s
  | .Boolean b => toString b

/-- Truthiness, `TokenLiteral::is_truthy` in src/ast.rs. -/
def is_truthy : TokenLiteral → Bool
  | .Empty => false
  | .Integer n => n != 0
  | .Float n => n != 0
  | .String _ => true
  | .Boolean b => b

/-- Equality of values, `TokenLiteral::is_equal` in src/ast.rs:
Integer/Float cross-promote, Empty equals nothing (not even Empty). -/
def is_equal : TokenLiteral → TokenLiteral → Bool
  | .Empty, _ => false
  | .Integer left, .Float right => right == (left : Rat)
  | .Integer left, .Integer right => right == left
  | .Integer _, _ => false
  | .Float left, .Float right => right == left
  | .Float left, .Integer right => left == (right : Rat)
  | .Float _, _ => false
  | .String left, .String right => left == right
  | .String _, _ => false
  | .Boolean left, .Boolean right => left == right
  | .Boolean _, _ => false

/-- `impl Add for TokenLiteral` in src/ast.rs.  `none` models the `todo!()`
panics; the `String + Float`, `String + Boolean`, `String + Empty` and
`Boolean`/`Empty` left-operand cases fall through to
`Err(ParserError::UnsupportedAction)` exactly as in the source. -/
def addLit : TokenLiteral → TokenLiteral → Option (Except ParserError TokenLiteral)
  | .Float lhs, .Float rhs => some (.ok (.Float (lhs + rhs)))
  | .Float lhs, .Integer rhs => some (.ok (.Float (lhs + (rhs : Rat))))
  | .Float lhs, .String rhs => some (.ok (.String (displayFloat lhs ++ rhs)))
  | .Float _, _ => none
  | .Integer lhs, .Float rhs => some (.ok (.Float ((lhs : Rat) + rhs)))
  | .Integer lhs, .Integer rhs => some (.ok (.Integer (lhs + rhs)))
  | .Integer lhs, .String rhs => some (.ok (.String (toString lhs ++ rhs)))
  | .Integer _, _ => none
  | .String lhs, .String rhs => some (.ok (.String (lhs ++ rhs)))
  | .String lhs, .Integer rhs => some (.ok (.String (lhs ++ toString rhs)))
  | .String _, _ => some (.error ParserError.UnsupportedAction)
  | _, _ => some (.error ParserError.UnsupportedAction)

/-- `impl Sub for TokenLiteral` in src/ast.rs (`none` models `todo!()`). -/
def subLit : TokenLiteral → TokenLiteral → Option (Except ParserError TokenLiteral)
  | .Float lhs, .Float rhs => some (.ok (.Float (lhs - rhs)))
  | .Float lhs, .Integer rhs => some (.ok (.Float (lhs - (rhs : Rat))))
  | .Float _, _ => none
  | .Integer lhs, .Float rhs => some (.ok (.Float ((lhs : Rat) - rhs)))
  | .Integer lhs, .Integer rhs => some (.ok (.Integer (lhs - rhs)))
  | .Integer _, _ => none
  | _, _ => none

/-- `impl Mul for TokenLiteral` in src/ast.rs (`none` models `todo!()`). -/
def mulLit : TokenLiteral → TokenLiteral → Option (Except ParserError TokenLiteral)
  | .Float lhs, .Float rhs => some (.ok (.Float (lhs * rhs)))
  | .Float lhs, .Integer rhs => some (.ok (.Float (lhs * (rhs : Rat))))
  | .Float _, _ => none
  | .Integer lhs, .Float rhs => some (.ok (.Float ((lhs : Rat) * rhs)))
  | .Integer lhs, .Integer rhs => some (.ok (.Integer (lhs * rhs)))
  | .Integer _, _ => none
  | _, _ => none

/-- `impl Div for TokenLiteral` in src/ast.rs: every supported division
promotes to Float, including Integer / Integer (`none` models `todo!()`).
The rational value is exact where IEEE rounds (e.g. 1 / 3) and is 0 where
IEEE yields an infinity (division by zero), so theorems assert the value of
a division only at exactly representable quotients. -/
def divLit : TokenLiteral → TokenLiteral → Option (Except ParserError TokenLiteral)
  | .Float lhs, .Float rhs => some (.ok (.Float (lhs / rhs)))
  | .Float lhs, .Integer rhs => some (.ok (.Float (lhs / (rhs : Rat))))
  | .Float _, _ => none
  | .Integer lhs, .Float rhs => some (.ok (.Float ((lhs : Rat) / rhs)))
  | .Integer lhs, .Integer rhs => some (.ok (.Float ((lhs : Rat) / (rhs : Rat))))
  | .Integer _, _ => none
  | _, _ => none

/-- The Rust cast `x as u32`: truncation to the low 32 bits, read unsigned. -/
def as_u32 (x : Int) : Nat := (x % 4294967296).toNat

/-- The Rust cast `x as i32`: truncation to 32 bits, read as two's complement. -/
def as_i32 (x : Int) : Int := (x + 2147483648) % 4294967296 - 2147483648

/-- Model of `f64::powf`: exact on integer exponents; a non-integer exponent
has no rational power in general and is modelled as 0.  No claim evaluates
this branch. -/
def powf_model (f ff : Rat) : Rat := if ff.den = 1 then f ^ ff.num else 0

/-- `TokenLiteral::pow` in src/ast.rs.  Integer ** Integer computes
`i.pow(ii as u32)` — the exponent is CAST to u32, negative exponents are not
a domain error; every non-numeric combination returns `Ok(Empty)`, a value,
never an `Err`. -/
def powLit : TokenLiteral → TokenLiteral → Except ParserError TokenLiteral
  | .Integer i, .Integer ii => .ok (.Integer (i ^ as_u32 ii))
  | .Integer _, _ => .ok .Empty
  | .Float f, .Float ff => .ok (.Float (powf_model f ff))
  | .Float f, .Integer fi => .ok (.Float (f ^ as_i32 fi))
  | .Float _, _ => .ok .Empty
  | _, _ => .ok .Empty

/-- Decidable equality for `Except`, used to `decide` concrete runs. -/
instance {e a : Type} [DecidableEq e] [DecidableEq a] : DecidableEq (Except e a) :=
  fun x y =>
    match x, y with
    | .ok v, .ok w =>
      if h : v = w then isTrue (by rw [h]) else isFalse (by simp [h])
    | .error v, .error w =>
      if h : v = w then isTrue (by rw [h]) else isFalse (by simp [h])
    | .ok _, .error _ => isFalse (by simp)
    | .error _, .ok _ => isFalse (by simp)

/-- Expression nodes, from `enum Expression` in src/ast.rs. -/
inductive Expression where
  | Assign (name : Token) (value : Expression)
  | Logical (left : Expression) (operator : Token) (right : Expression)
  | Call (callee : Expression) (paren : Token) (arguments : List Expression)
  | Binary (left : Expression) (operator : Token) (right : Expression)
  | Unary (operator : Token) (right : Expression)
  | Grouping (e : Expression)
  | Literal (lit : TokenLiteral)
  | Variable (tok : Token)
  | Empty

/-- Statement nodes, from `enum Statement` in src/stmt.rs. -/
inductive Statement where
  | Block (stmts : List Statement)
  | If (cond : Expression) (then_branch : Statement) (else_branch : Option Statement)
  | While (cond : Expression) (body : Statement)
  | Function (name : Token) (params : List Token) (body : List Statement)
  | Return (keyword : Token) (value : Option Expression)
  | Expression (expr : Expression)
  | Print (expr : Expression)
  | Dump
  | Var (name : Token) (initializer : Option Expression)

/-- A declared function, from `struct Function` in src/interpreter.rs. -/
structure FunctionDef where
  name : Token
  params : List Token
  body : List Statement

/-- One scope frame: `HashMap<String, TokenLiteral>` as an association list
(leftmost binding for a key is the current one). -/
abbrev Frame := List (String × TokenLiteral)

/-- First-match association-list lookup (models `HashMap::get`). -/
def frameLookup (name : String) : Frame → Option TokenLiteral
  | [] => none
  | (k, v) :: rest => if k = name then some v else frameLookup name rest

/-- `HashMap::insert`, modelled by shadowing: the new binding is consed on. -/
def frameInsert (name : String) (v : TokenLiteral) (f : Frame) : Frame :=
  (name, v) :: f

/-- Interpreter state, from `struct Interpreter` in src/interpreter.rs.
`envs` holds the innermost scope frame FIRST; the global frame (Rust Vec
index 0) is the LAST element, so Rust `Vec::push`/`Vec::pop` at the Vec's end
become cons/tail at the head.  `output` records the text printed by `Print`
statements (Rust `println`). -/
structure InterpState where
  envs : List Frame
  functions : List (String × FunctionDef)
  output : List String

/-- `Interpreter::new()`: a single empty global frame, no functions. -/
def initState : InterpState := { envs := [[]], functions := [], output := [] }

/-- `Interpreter::define`: insert into the innermost frame (`last_mut`);
a no-op when the stack is empty, as in the source (`if let Some(env)`). -/
def defineVar (name : String) (v : TokenLiteral) (s : InterpState) : InterpState :=
  match s.envs with
  | [] => s
  | f :: rest => { s with envs := frameInsert name v f :: rest }

/-- The frame-stack walk of `Interpreter::assign` (src/interpreter.rs lines
36-44): update the innermost frame that contains the name; when no frame
contains it, insert into the global frame (`self.envs[0]`), which is the
last element here.  The source indexes `envs[0]` unconditionally and would
panic on an empty stack; the stack is never empty in any use, and the empty
case here returns the stack unchanged. -/
def assignFrames (name : String) (v : TokenLiteral) : List Frame → List Frame
  | [] => []
  | [g] => [frameInsert name v g]
  | f :: rest =>
    if (frameLookup name f).isSome then frameInsert name v f :: rest
    else f :: assignFrames name v rest

/-- `Interpreter::assign` acting on the whole state. -/
def assignVar (name : String) (v : TokenLiteral) (s : InterpState) : InterpState :=
  { s with envs := assignFrames name v s.envs }

/-- `Interpreter::get`: walk the frames from innermost to global, first hit
wins. -/
def getVar (name : String) : List Frame → Option TokenLiteral
  | [] => none
  | f :: rest =>
    match frameLookup name f with
    | some v => some v
    | none => getVar name rest

/-- Lookup in the flat function table (`self.functions.get`). -/
def funcLookup (name : String) : List (String × FunctionDef) → Option FunctionDef
  | [] => none
  | (k, v) :: rest => if k = name then some v else funcLookup name rest

/-- `self.envs.push(HashMap::new())`: push a fresh innermost frame. -/
def pushEnv (s : InterpState) : InterpState := { s with envs := [] :: s.envs }

/-- `self.envs.pop()`: drop the innermost frame (no-op on an empty stack,
like `Vec::pop`). -/
def popEnv (s : InterpState) : InterpState := { s with envs := s.envs.tail }

/-- Bind parameters to argument values positionally:
`func.params.iter().zip(args_vals)` followed by `define` — extra arguments
are dropped and extra parameters stay unbound, as zip does in the source. -/
def bindParams : List Token → List TokenLiteral → InterpState → InterpState
  | [], _, s => s
  | _, [], s => s
  | p :: ps, v :: vs, s => bindParams ps vs (defineVar p.lexeme v s)

/-- Lift the result of a `TokenLiteral` arithmetic operator into the
interpreter's result type: the `?` in `Ok(left_val.add(right_val)?)`
converts a `ParserError` into `LoxError::ParseError`. -/
def liftArith (s : InterpState) :
    Option (Except ParserError TokenLiteral) →
    Option (InterpState × Except LoxError TokenLiteral)
  | none => none
  | some (.error e) => some (s, .error (.ParseError e))
  | some (.ok v) => some (s, .ok v)

/-- The comparison-operator dispatch inlined in `Interpreter::evaluate`
(src/interpreter.rs lines 169-184): both operands Integer compares them,
EVERY other combination yields `Boolean(false)` (the `_ => false` arms). -/
def compareInterp (tt : TokenType) (l r : TokenLiteral) : Bool :=
  match tt, l, r with
  | .GREATER, .Integer a, .Integer b => decide (a > b)
  | .GREATER, _, _ => false
  | .GREATER_EQUAL, .Integer a, .Integer b => decide (a ≥ b)
  | .GREATER_EQUAL, _, _ => false
  | .LESS, .Integer a, .Integer b => decide (a < b)
  | .LESS, _, _ => false
  | .LESS_EQUAL, .Integer a, .Integer b => decide (a ≤ b)
  | .LESS_EQUAL, _, _ => false
  | _, _, _ => false

mutual

/-- `Interpreter::evaluate` (src/interpreter.rs lines 142-242), with fuel.
Result: `none` is a panic or fuel exhaustion; otherwise the state as mutated
so far together with `Ok(value)` or a propagating `Err`. -/
def evaluate : Nat → Expression → InterpState →
    Option (InterpState × Except LoxError TokenLiteral)
  | 0, _, _ => none
  | fuel + 1, e, s =>
    match e with
    | .Literal lit => some (s, .ok lit)
    | .Grouping g => evaluate fuel g s
    | .Unary op right =>
      match evaluate fuel right s with
      | none => none
      | some (s1, .error er) => some (s1, .error er)
      | some (s1, .ok rv) =>
        match op.token_type with
        | .MINUS =>
          match rv with
          | .Integer n => some (s1, .ok (.Integer (-n)))
          | _ => some (s1, .error (.ParseError .UnsupportedAction))
        | .BANG => some (s1, .ok (.Boolean (!(is_truthy rv))))
        | _ => some (s1, .error .RuntimeException)
    | .Binary left op right =>
      match evaluate fuel left s with
      | none => none
      | some (s1, .error er) => some (s1, .error er)
      | some (s1, .ok lv) =>
        match evaluate fuel right s1 with
        | none => none
        | some (s2, .error er) => some (s2, .error er)
        | some (s2, .ok rv) =>
          match op.token_type with
          | .PLUS => liftArith s2 (addLit lv rv)
          | .MINUS => liftArith s2 (subLit lv rv)
          | .STAR => liftArith s2 (mulLit lv rv)
          | .SLASH => liftArith s2 (divLit lv rv)
          | .EXPONENT => liftArith s2 (some (powLit lv rv))
          | .GREATER => some (s2, .ok (.Boolean (compareInterp .GREATER lv rv)))
          | .GREATER_EQUAL =>
            some (s2, .ok (.Boolean (compareInterp .GREATER_EQUAL lv rv)))
          | .LESS => some (s2, .ok (.Boolean (compareInterp .LESS lv rv)))
          | .LESS_EQUAL =>
            some (s2, .ok (.Boolean (compareInterp .LESS_EQUAL lv rv)))
          | .BANG_EQUAL => some (s2, .ok (.Boolean (!(is_equal lv rv))))
          | .EQUAL_EQUAL => some (s2, .ok (.Boolean (is_equal lv rv)))
          | _ => some (s2, .error .RuntimeException)
    | .Variable tok =>
      match getVar tok.lexeme s.envs with
      | some v => some (s, .ok v)
      | none => some (s, .ok tok.literal)
    | .Assign name value =>
      match evaluate fuel value s with
      | none => none
      | some (s1, .error er) => some (s1, .error er)
      | some (s1, .ok v) => some (assignVar name.lexeme v s1, .ok v)
    | .Logical left op right =>
      match evaluate fuel left s with
      | none => none
      | some (s1, .error er) => some (s1, .error er)
      | some (s1, .ok lv) =>
        if op.token_type = TokenType.OR then
          if is_truthy lv then some (s1, .ok lv) else evaluate fuel right s1
        else
          if !(is_truthy lv) then some (s1, .ok lv) else evaluate fuel right s1
    | .Call callee _ arguments =>
      match callee with
      | .Variable name_tok =>
        match funcLookup name_tok.lexeme s.functions with
        | some func =>
          match evalArgs fuel arguments s with
          | none => none
          | some (s1, .error er) => some (s1, .error er)
          | some (s1, .ok vals) =>
            let s2 := bindParams func.params vals (pushEnv s1)
            match executeStmts fuel func.body s2 with
            | none => none
            | some (s3, .error er) => some (s3, .error er)
            | some (s3, .ok r) =>
              some (popEnv s3, .ok (r.getD TokenLiteral.Empty))
        | none => some (s, .error .RuntimeException)
      | _ => some (s, .error .RuntimeException)
    | .Empty => some (s, .ok .Empty)

/-- The left-to-right argument evaluation loop of the `Call` arm. -/
def evalArgs : Nat → List Expression → InterpState →
    Option (InterpState × Except LoxError (List TokenLiteral))
  | 0, _, _ => none
  | fuel + 1, args, s =>
    match args with
    | [] => some (s, .ok [])
    | a :: rest =>
      match evaluate fuel a s with
      | none => none
      | some (s1, .error er) => some (s1, .error er)
      | some (s1, .ok v) =>
        match evalArgs fuel rest s1 with
        | none => none
        | some (s2, .error er) => some (s2, .error er)
        | some (s2, .ok vs) => some (s2, .ok (v :: vs))

/-- The statement loop shared by `Statement::Block` and the `Call` arm:
run the statements in order; a pending return value (`Some v`) breaks the
loop; an `Err` from any statement propagates immediately through `?`,
leaving the state exactly as already mutated. -/
def executeStmts : Nat → List Statement → InterpState →
    Option (InterpState × Except LoxError (Option TokenLiteral))
  | 0, _, _ => none
  | fuel + 1, stmts, s =>
    match stmts with
    | [] => some (s, .ok none)
    | st :: rest =>
      match execute fuel st s with
      | none => none
      | some (s1, .error er) => some (s1, .error er)
      | some (s1, .ok (some v)) => some (s1, .ok (some v))
      | some (s1, .ok none) => executeStmts fuel rest s1

/-- `Interpreter::execute` (src/interpreter.rs lines 67-140), with fuel.
`Ok(Some v)` is a pending return value unwinding to the enclosing call.
Note the Block arm: `self.envs.pop()` runs only after the statement loop
returns without an `Err` — an error propagates with the pushed frame still
on the stack. -/
def execute : Nat → Statement → InterpState →
    Option (InterpState × Except LoxError (Option TokenLiteral))
  | 0, _, _ => none
  | fuel + 1, st, s =>
    match st with
    | .Expression ex =>
      match evaluate fuel ex s with
      | none => none
      | some (s1, .error er) => some (s1, .error er)
      | some (s1, .ok _) => some (s1, .ok none)
    | .Print ex =>
      match evaluate fuel ex s with
      | none => none
      | some (s1, .error er) => some (s1, .error er)
      | some (s1, .ok v) =>
        some ({ s1 with output := s1.output ++ [displayValue v] }, .ok none)
    | .Var name initializer =>
      match initializer with
      | some ex =>
        match evaluate fuel ex s with
        | none => none
        | some (s1, .error er) => some (s1, .error er)
        | some (s1, .ok v) => some (defineVar name.lexeme v s1, .ok none)
      | none => some (defineVar name.lexeme TokenLiteral.Empty s, .ok none)
    | .Block stmts =>
      match executeStmts fuel stmts (pushEnv s) with
      | none => none
      | some (s1, .error er) => some (s1, .error er)
      | some (s1, .ok ret) => some (popEnv s1, .ok ret)
    | .If cond then_branch else_branch =>
      match evaluate fuel cond s with
      | none => none
      | some (s1, .error er) => some (s1, .error er)
      | some (s1, .ok v) =>
        if is_truthy v then execute fuel then_branch s1
        else
          match else_branch with
          | some els => execute fuel els s1
          | none => some (s1, .ok none)
    | .While cond body =>
      match evaluate fuel cond s with
      | none => none
      | some (s1, .error er) => some (s1, .error er)
      | some (s1, .ok v) =>
        if is_truthy v then
          match execute fuel body s1 with
          | none => none
          | some (s2, .error er) => some (s2, .error er)
          | some (s2, .ok (some r)) => some (s2, .ok (some r))
          | some (s2, .ok none) => execute fuel (.While cond body) s2
        else some (s1, .ok none)
    | .Function name params body =>
      some ({ s with
              functions := (name.lexeme, ⟨name, params, body⟩) :: s.functions },
            .ok none)
    | .Return _ value =>
      match value with
      | some ex =>
        match evaluate fuel ex s with
        | none => none
        | some (s1, .error er) => some (s1, .error er)
        | some (s1, .ok v) => some (s1, .ok (some v))
      | none => some (s, .ok (some TokenLiteral.Empty))
    | .Dump => some (s, .ok none)

end

/-! ## Scanner (src/scanner.rs)

`char::is_alphabetic`/`is_alphanumeric` are modelled by `Char.isAlpha`/
`Char.isAlphanum`; every claim uses ASCII source text, where they agree.
The NUL sentinel returned at end of input is `Char.ofNat 0` as in the
source.  `reports` records each `Scanner::report` call as
(line, location, message). -/

/-- Scanner state, from `struct Scanner` in src/scanner.rs. -/
structure ScanState where
  had_error : Bool
  source : List Char
  start : Nat
  current : Nat
  line : Nat
  tokens : List Token
  reports : List (Nat × String × String)

/-- `Scanner::default()` with the given source loaded (`load` extends the
source before scanning). -/
def initScanner (src : List Char) : ScanState :=
  { had_error := false, source := src, start := 0, current := 0,
    line := 1, tokens := [], reports := [] }

/-- `Scanner::is_at_end`. -/
def sAtEnd (s : ScanState) : Bool := s.source.length ≤ s.current

/-- `Scanner::peek`: NUL at end of input. -/
def sPeek (s : ScanState) : Char :=
  if sAtEnd s then Char.ofNat 0 else s.source.getD s.current (Char.ofNat 0)

/-- `Scanner::peek_next`. -/
def sPeekNext (s : ScanState) : Char :=
  if s.source.length ≤ s.current + 1 then Char.ofNat 0
  else s.source.getD (s.current + 1) (Char.ofNat 0)

/-- `Scanner::next`: NUL without advancing at end of input. -/
def sNext (s : ScanState) : Char × ScanState :=
  if s.source.length ≤ s.current then (Char.ofNat 0, s)
  else (s.source.getD s.current (Char.ofNat 0), { s with current := s.current + 1 })

/-- `Scanner::consume_if_next`. -/
def consumeIfNext (c : Char) (s : ScanState) : Bool × ScanState :=
  if sAtEnd s then (false, s)
  else if s.source.getD s.current (Char.ofNat 0) ≠ c then (false, s)
  else (true, { s with current := s.current + 1 })

/-- The slice `source[a..b]` of the scanner's source. -/
def slice (s : ScanState) (a b : Nat) : List Char := (s.source.drop a).take (b - a)

/-- `Scanner::add_token`: lexeme is `source[start..current]`. -/
def addToken (tt : TokenType) (lit : TokenLiteral) (s : ScanState) : ScanState :=
  { s with tokens := s.tokens ++
      [{ token_type := tt, lexeme := String.mk (slice s s.start s.current),
         literal := lit, line := s.line }] }

/-- `Scanner::report` (via `Scanner::err`, which passes an empty location):
prints the diagnostic and sets `had_error`. -/
def sReport (line : Nat) (loc msg : String) (s : ScanState) : ScanState :=
  { s with had_error := true, reports := s.reports ++ [(line, loc, msg)] }

/-- `Scanner::err`. -/
def sErr (line : Nat) (msg : String) (s : ScanState) : ScanState :=
  sReport line "" msg s

/-- The digit-run loops of `Scanner::number` (fuel is always ample: each
step consumes one source character). -/
def skipDigits : Nat → ScanState → ScanState
  | 0, s => s
  | fuel + 1, s =>
    if (sPeek s).isDigit then skipDigits fuel (sNext s).2 else s

/-- Numeric value of a digit run (`str::parse::<isize>` on the matched text;
overflow, which `unwrap_or_default`s to 0 in the source, is not modelled —
no claim scans a literal beyond isize range). -/
def parseDigits (cs : List Char) : Nat :=
  cs.foldl (fun acc c => 10 * acc + (c.toNat - 48)) 0

/-- Value of a float literal `digits.digits` (`str::parse::<f64>`,
exact in the rational model for the short literals claims use). -/
def parseFloatChars (cs : List Char) : Rat :=
  let intPart := cs.takeWhile (fun c => c ≠ '.')
  let frac := (cs.dropWhile (fun c => c ≠ '.')).drop 1
  (parseDigits intPart : Rat) + (parseDigits frac : Rat) / ((10 : Rat) ^ frac.length)

/-- `Scanner::number`: a digit run, optionally `.` plus another digit run;
a fractional part selects Float, otherwise Integer. -/
def number (s : ScanState) : ScanState :=
  let s1 := skipDigits (s.source.length + 1) s
  let step :=
    if (sPeek s1 = '.') ∧ (sPeekNext s1).isDigit then (true, (sNext s1).2)
    else (false, s1)
  let s2 := skipDigits (s.source.length + 1) step.2
  if step.1 then
    addToken .NUMBER (.Float (parseFloatChars (slice s2 s2.start s2.current))) s2
  else
    addToken .NUMBER (.Integer (parseDigits (slice s2 s2.start s2.current))) s2

/-- The alphanumeric loop of `Scanner::identifier`. -/
def skipAlnum : Nat → ScanState → ScanState
  | 0, s => s
  | fuel + 1, s =>
    if (sPeek s).isAlphanum then skipAlnum fuel (sNext s).2 else s

/-- `Scanner::identifier`: keywords from the fixed table, otherwise an
IDENTIFIER token whose literal is the String of the identifier's own text. -/
def identifier (s : ScanState) : ScanState :=
  let s1 := skipAlnum (s.source.length + 1) s
  let ident := String.mk (slice s1 s1.start s1.current)
  match keyword_token_type ident with
  | some idm => addToken idm .Empty s1
  | none => addToken .IDENTIFIER (.String ident) s1

/-- The character loop of `Scanner::string`: consume until the matching
quote or end of input, counting newlines. -/
def stringLoop : Nat → Char → ScanState → ScanState
  | 0, _, s => s
  | fuel + 1, c, s =>
    if (sPeek s ≠ c) ∧ ¬ (sAtEnd s = true) then
      let s1 := if sPeek s = '\n' then { s with line := s.line + 1 } else s
      stringLoop fuel c (sNext s1).2
    else s

/-- `Scanner::string` for opening quote `c`: unterminated strings report an
error but scanning continues; literal is `source[start+1..current-1]`. -/
def stringLit (c : Char) (s : ScanState) : ScanState :=
  let s1 := stringLoop (s.source.length + 1) c s
  let s2 := if sAtEnd s1 then sErr s1.line "Unterminated string" s1 else s1
  let s3 := (sNext s2).2
  addToken .STRING (.String (String.mk (slice s3 (s3.start + 1) (s3.current - 1)))) s3

/-- The to-end-of-line loop of `Scanner::comment`. -/
def commentLoop : Nat → ScanState → ScanState
  | 0, s => s
  | fuel + 1, s =>
    if (sPeek s ≠ '\n') ∧ ¬ (sAtEnd s = true) then commentLoop fuel (sNext s).2
    else s

/-- `Scanner::comment`: a `//` line comment, consumed to end of line and
emitted as a COMMENT token carrying the comment text. -/
def lineComment (s : ScanState) : ScanState :=
  let s1 := commentLoop (s.source.length + 1) s
  addToken .COMMENT (.String (String.mk (slice s1 (s1.start + 2) s1.current))) s1

/-- The loop of `Scanner::block_comment`, translated with its condition
EXACTLY as written in the source (src/scanner.rs line 242):
`while peek != '*' && peek_next == '/' && is_at_end` — the conjunction
demands `is_at_end` be true while `peek_next` reads a real character, which
is impossible, so the loop body never runs. -/
def blockCommentLoop : Nat → ScanState → ScanState
  | 0, s => s
  | fuel + 1, s =>
    if (sPeek s ≠ '*') ∧ (sPeekNext s = '/') ∧ (sAtEnd s = true) then
      blockCommentLoop fuel (sNext s).2
    else s

/-- `Scanner::block_comment`: after the (never-running) loop, if not at end
the cursor jumps two characters and a BLOCK_COMMENT token is emitted with
literal `source[start+2..current-2]`. -/
def block_comment (s : ScanState) : ScanState :=
  let s1 := blockCommentLoop (s.source.length + 1) s
  if sAtEnd s1 then sErr s1.line "Unterminated block comment!" s1
  else
    let s2 := { s1 with current := s1.current + 2 }
    addToken .BLOCK_COMMENT
      (.String (String.mk (slice s2 (s2.start + 2) (s2.current - 2)))) s2

/-- `Scanner::scan_token`: one token (or skipped whitespace, or a comment)
starting at the current cursor.  The unknown-character arm reports the
error (with the line number) and returns `Err(LoxError::ScanError(c))`. -/
def scanToken (s : ScanState) : ScanState × Except LoxError Unit :=
  let next := sNext s
  let c := next.1
  let s1 := next.2
  match c with
  | '(' => (addToken .LEFT_PAREN .Empty s1, .ok ())
  | ')' => (addToken .RIGHT_PAREN .Empty s1, .ok ())
  | '{' => (addToken .LEFT_BRACE .Empty s1, .ok ())
  | '}' => (addToken .RIGHT_BRACE .Empty s1, .ok ())
  | ',' => (addToken .COMMA .Empty s1, .ok ())
  | '.' => (addToken .DOT .Empty s1, .ok ())
  | '-' => (addToken .MINUS .Empty s1, .ok ())
  | '+' => (addToken .PLUS .Empty s1, .ok ())
  | ';' => (addToken .SEMICOLON .Empty s1, .ok ())
  | '^' => (addToken .EXPONENT .Empty s1, .ok ())
  | '*' =>
    let step := consumeIfNext '*' s1
    (addToken (if step.1 then .EXPONENT else .STAR) .Empty step.2, .ok ())
  | '!' =>
    let step := consumeIfNext '=' s1
    (addToken (if step.1 then .BANG_EQUAL else .BANG) .Empty step.2, .ok ())
  | '=' =>
    let step := consumeIfNext '=' s1
    (addToken (if step.1 then .EQUAL_EQUAL else .EQUAL) .Empty step.2, .ok ())
  | '<' =>
    let step := consumeIfNext '=' s1
    (addToken (if step.1 then .LESS_EQUAL else .LESS) .Empty step.2, .ok ())
  | '>' =>
    let step := consumeIfNext '=' s1
    (addToken (if step.1 then .GREATER_EQUAL else .GREATER) .Empty step.2, .ok ())
  | '/' =>
    let step := consumeIfNext '/' s1
    if step.1 then (lineComment step.2, .ok ())
    else
      let step2 := consumeIfNext '*' step.2
      if step2.1 then (block_comment step2.2, .ok ())
      else (addToken .SLASH .Empty step2.2, .ok ())
  | '"' => (stringLit '"' s1, .ok ())
  | '\'' => (stringLit '\'' s1, .ok ())
  | ' ' => (s1, .ok ())
  | '\r' => (s1, .ok ())
  | '\t' => (s1, .ok ())
  | '\n' => ({ s1 with line := s1.line + 1 }, .ok ())
  | other =>
    if other.isDigit then (number s1, .ok ())
    else if other.isAlpha then (identifier s1, .ok ())
    else
      (sErr s1.line ("Unexpected character: " ++ String.mk [other]) s1,
       .error (.ScanError other))

/-- `Scanner::scan_tokens`: the driver loop.  The source calls
`self.scan_token().expect("Failed to scan token")`, so an `Err` from
`scan_token` PANICS, aborting the scan; the Bool records whether that panic
fired (`none` is fuel exhaustion, which concrete runs never hit). -/
def scanTokens : Nat → ScanState → Option (ScanState × Bool)
  | 0, _ => none
  | fuel + 1, s =>
    if sAtEnd s then some (s, false)
    else
      let s1 := { s with start := s.current }
      match scanToken s1 with
      | (s2, .error _) => some (s2, true)
      | (s2, .ok _) => scanTokens fuel s2

/-! ## Parser fragments (src/parser.rs) -/

/-- The desugaring tail of `Parser::for_statement` (src/parser.rs lines
184-193), as a function of the already-parsed pieces: wrap the body with the
increment in a Block when an increment is present, default a missing
condition to the literal `true`, wrap in a While, and wrap with the
initializer in an outer Block when an initializer is present. -/
def for_statement_desugar (initializer : Option Statement)
    (condition : Option Expression) (increment : Option Expression)
    (body : Statement) : Statement :=
  let body1 :=
    match increment with
    | some inc => Statement.Block [body, Statement.Expression inc]
    | none => body
  let cond :=
    match condition with
    | some c => c
    | none => Expression.Literal (TokenLiteral.Boolean true)
  let body2 := Statement.While cond body1
  match initializer with
  | some init => Statement.Block [init, body2]
  | none => body2

/-- The statement tree `{ init; while (cond) { body; incr; } }` written
directly from the spec's desugaring sentence, for comparison with the
parser's construction. -/
def forDesugarSpec (init : Statement) (cond : Expression) (incr : Expression)
    (body : Statement) : Statement :=
  Statement.Block
    [init, Statement.While cond (Statement.Block [body, Statement.Expression incr])]

/-! ## The secondary evaluator `Expression::evaluate` in src/ast.rs
(used only by the crate's tests; the running interpreter is
`Interpreter::evaluate` above).  Only its comparison arms matter to a
claim. -/

/-- `Expression::check_number_operand` in src/ast.rs: Integer or Float. -/
def check_number_operand : TokenLiteral → Bool
  | .Integer _ => true
  | .Float _ => true
  | _ => false

/-- A comparison arm of `Expression::evaluate` in src/ast.rs (lines
150-193), parametrised by the integer comparison of the arm: the RIGHT
operand is checked numeric (else `Err(UnsupportedAction)`), then
Integer/Integer compares and every other numeric combination falls through
to `Ok(Empty)`. -/
def astCompare (cmp : Int → Int → Bool) (l r : TokenLiteral) :
    Except ParserError TokenLiteral :=
  if check_number_operand r = false then .error .UnsupportedAction
  else
    match l, r with
    | .Integer a, .Integer b => .ok (.Boolean (cmp a b))
    | _, _ => .ok .Empty



/-! ## Shared concrete tokens for the theorems -/

/-- A `>` operator token. -/
def gtTok : Token := { token_type := .GREATER, lexeme := ">", literal := .Empty, line := 1 }

/-- A `>=` operator token. -/
def geTok : Token := { token_type := .GREATER_EQUAL, lexeme := ">=", literal := .Empty, line := 1 }

/-- A `<` operator token. -/
def ltTok : Token := { token_type := .LESS, lexeme := "<", literal := .Empty, line := 1 }

/-- A `<=` operator token. -/
def leTok : Token := { token_type := .LESS_EQUAL, lexeme := "<=", literal := .Empty, line := 1 }

/-- A `+` operator token. -/
def plusTok : Token := { token_type := .PLUS, lexeme := "+", literal := .Empty, line := 1 }

/-- A `-` operator token. -/
def minusTok : Token := { token_type := .MINUS, lexeme := "-", literal := .Empty, line := 1 }

/-- A `**` operator token. -/
def expTok : Token := { token_type := .EXPONENT, lexeme := "**", literal := .Empty, line := 1 }

/-- A `/` operator token. -/
def slashTok : Token := { token_type := .SLASH, lexeme := "/", literal := .Empty, line := 1 }

/-- An identifier token as the scanner produces it: the literal is the
String of the identifier's own text. -/
def idTok (n : String) : Token :=
  { token_type := .IDENTIFIER, lexeme := n, literal := .String n, line := 1 }

/-! ## Theorems about the claims -/

/-- Helper: `assign` walks past a frame that does not contain the name
(when frames remain below it). -/
theorem assignFrames_cons_not_found (n : String) (v : TokenLiteral)
    (g : Frame) (rest : List Frame) (hg : frameLookup n g = none)
    (hne : rest ≠ []) :
    assignFrames n v (g :: rest) = g :: assignFrames n v rest := by
  cases rest with
  | nil => exact absurd rfl hne
  | cons r rs => simp [assignFrames, hg]

/-- C7: assignment updates the innermost frame that binds the name; a name
bound in no frame is created in the global (outermost) frame rather than
failing; consequently a name first assigned inside a nested block is
visible at global scope after the block exits. -/
theorem assign_innermost_else_global (n : String) (v : TokenLiteral) :
    (∀ (pre : List Frame) (f : Frame) (post : List Frame),
        (∀ g ∈ pre, frameLookup n g = none) → (frameLookup n f).isSome →
        assignFrames n v (pre ++ f :: post) = pre ++ frameInsert n v f :: post)
    ∧ (∀ (pre : List Frame) (g : Frame),
        (∀ p ∈ pre, frameLookup n p = none) → frameLookup n g = none →
        assignFrames n v (pre ++ [g]) = pre ++ [frameInsert n v g])
    ∧ execute 10 (.Block [.Expression (.Assign (idTok n) (.Literal v))]) initState
        = some ({ envs := [[(n, v)]], functions := [], output := [] }, .ok none) := by
  refine ⟨?_, ?_, rfl⟩
  · intro pre
    induction pre with
    | nil =>
      intro f post _ hf
      cases post with
      | nil => simp [assignFrames]
      | cons p ps => simp [assignFrames, hf]
    | cons g gs ih =>
      intro f post hpre hf
      have hg : frameLookup n g = none := hpre g (List.mem_cons_self g gs)
      have hne : gs ++ f :: post ≠ [] := by simp
      rw [List.cons_append, assignFrames_cons_not_found n v g _ hg hne,
        ih f post (fun x hx => hpre x (List.mem_cons_of_mem g hx)) hf]
      simp
  · intro pre
    induction pre with
    | nil =>
      intro g _ _
      simp [assignFrames]
    | cons q qs ih =>
      intro g hpre hg
      have hq : frameLookup n q = none := hpre q (List.mem_cons_self q qs)
      have hne : qs ++ [g] ≠ [] := by simp
      rw [List.cons_append, assignFrames_cons_not_found n v q _ hq hne,
        ih g (fun x hx => hpre x (List.mem_cons_of_mem q hx)) hg]
      simp

/-- Witness for C7 at concrete frames: with an outer frame binding only
`y` and an inner-less global frame binding `x`, assignment to `x` updates
the frame where it was found, and assignment to `z` (bound nowhere)
creates it in the global frame. -/
theorem assign_innermost_else_global_witness :
    assignFrames "x" (.Integer 7) ([[("y", .Integer 1)]] ++ [("x", .Integer 2)] :: [])
      = [[("y", .Integer 1)]] ++ frameInsert "x" (.Integer 7) [("x", .Integer 2)] :: [] :=
  (assign_innermost_else_global "x" (.Integer 7)).1
    [[("y", .Integer 1)]] [("x", .Integer 2)] []
    (by intro g hg; simp at hg; subst hg; rfl) (by rfl)

/-- C9: the parser's for-statement construction yields exactly the tree
`{ init; while (cond) { body; incr; } }`, and a missing condition is
replaced by the boolean literal `true`. -/
theorem for_desugar_matches_spec
    (init : Statement) (cond : Expression) (incr : Expression) (body : Statement) :
    for_statement_desugar (some init) (some cond) (some incr) body
      = forDesugarSpec init cond incr body
    ∧ for_statement_desugar (some init) none (some incr) body
      = forDesugarSpec init (.Literal (.Boolean true)) incr body :=
  ⟨rfl, rfl⟩

/-- C10: a Variable expression never fails: it yields the innermost binding
when one exists and otherwise the literal stored in the identifier token;
the scanner stores the identifier's own text as that literal, so reading an
undefined variable `x` yields the String "x". -/
theorem undefined_variable_yields_identifier_text :
    (∀ (fuel : Nat) (tok : Token) (s : InterpState),
        evaluate (fuel + 1) (.Variable tok) s
          = some (s, .ok ((getVar tok.lexeme s.envs).getD tok.literal)))
    ∧ scanTokens 10 (initScanner ['x'])
        = some ({ had_error := false, source := ['x'], start := 0, current := 1,
                  line := 1,
                  tokens := [{ token_type := .IDENTIFIER, lexeme := "x",
                               literal := .String "x", line := 1 }],
                  reports := [] }, false)
    ∧ evaluate 10 (.Variable (idTok "x")) initState
        = some (initState, .ok (.String "x")) := by
  refine ⟨?_, rfl, rfl⟩
  intro fuel tok s
  cases hg : getVar tok.lexeme s.envs with
  | none => simp [evaluate, hg]
  | some v => simp [evaluate, hg]

/-- C1: refuted exhibit.  Executing a Block whose child statement fails at
runtime (unary minus on a String) propagates the error through `?` BEFORE
`envs.pop()` runs: the frame pushed on entry is still on the stack (height
2 instead of the initial 1), so the scope stack is NOT restored on the
runtime-failure exit path, contrary to the claim and to the stated design
intent of popping on every exit path. -/
theorem block_error_skips_pop :
    execute 10 (.Block [.Expression (.Unary minusTok (.Literal (.String "boom")))])
        initState
      = some ({ envs := [[], []], functions := [], output := [] },
              .error (.ParseError .UnsupportedAction))
    ∧ initState.envs.length = 1
    ∧ ({ envs := [[], []], functions := [], output := [] } : InterpState).envs.length = 2 :=
  ⟨rfl, rfl, rfl⟩

/-- C2: refuted exhibit.  Scanning the two-character source "@+": the
unknown character `@` is reported with its line number, but `scan_tokens`
then panics (`.expect` on the `Err` from `scan_token`), aborting the scan —
the `+` is never tokenized and no further lexical errors could be
collected, contrary to the claim that scanning always continues to the end
of the input.  The Bool `true` records the panic. -/
theorem scan_unknown_char_panics :
    scanTokens 10 (initScanner ['@', '+'])
      = some ({ had_error := true, source := ['@', '+'], start := 0, current := 1,
                line := 1, tokens := [],
                reports := [(1, "", "Unexpected character: @")] }, true) :=
  rfl

/-- C8: refuted exhibit.  Scanning "/*ab*/": the loop condition of
`block_comment` (`peek != '*' && peek_next == '/' && is_at_end`) can never
hold, so the loop body never runs; the scanner emits a BLOCK_COMMENT token
covering only `/*ab` with an empty literal and then tokenizes the rest of
the comment (`*` and `/`) as STAR and SLASH tokens — the block comment is
NOT consumed through the closing `*/`. -/
theorem block_comment_left_unconsumed :
    scanTokens 10 (initScanner ['/', '*', 'a', 'b', '*', '/'])
      = some ({ had_error := false, source := ['/', '*', 'a', 'b', '*', '/'],
                start := 5, current := 6, line := 1,
                tokens := [
                  { token_type := .BLOCK_COMMENT, lexeme := "/*ab",
                    literal := .String "", line := 1 },
                  { token_type := .STAR, lexeme := "*", literal := .Empty, line := 1 },
                  { token_type := .SLASH, lexeme := "/", literal := .Empty, line := 1 }],
                reports := [] }, false) :=
  rfl

/-- C3: counterexample.  Evaluating the comparison `1.0 > 2.0` (both
operands Float, so not both Integer) yields `Boolean false`, not the Empty
value the claim asserts. -/
theorem comparison_nonint_not_empty :
    evaluate 10 (.Binary (.Literal (.Float 1)) gtTok (.Literal (.Float 2))) initState
      = some (initState, .ok (.Boolean false))
    ∧ TokenLiteral.Boolean false ≠ TokenLiteral.Empty :=
  ⟨rfl, by decide⟩

/-- C3 amended: in the running interpreter, a comparison with both operands
Integer yields the Boolean of the standard integer comparison, and EVERY
other operand combination yields `Boolean false` (not Empty); in the
secondary evaluator `Expression::evaluate` of src/ast.rs (used only by the
crate's tests) a numeric-but-not-both-Integer comparison yields Empty while
a non-numeric right operand is an `UnsupportedAction` error. -/
theorem comparison_semantics (a b : Int) (l r : TokenLiteral)
    (h : ∀ x y : Int, ¬(l = TokenLiteral.Integer x ∧ r = TokenLiteral.Integer y)) :
    (evaluate 10 (.Binary (.Literal (.Integer a)) gtTok (.Literal (.Integer b))) initState
        = some (initState, .ok (.Boolean (decide (a > b)))))
    ∧ (evaluate 10 (.Binary (.Literal (.Integer a)) geTok (.Literal (.Integer b))) initState
        = some (initState, .ok (.Boolean (decide (a ≥ b)))))
    ∧ (evaluate 10 (.Binary (.Literal (.Integer a)) ltTok (.Literal (.Integer b))) initState
        = some (initState, .ok (.Boolean (decide (a < b)))))
    ∧ (evaluate 10 (.Binary (.Literal (.Integer a)) leTok (.Literal (.Integer b))) initState
        = some (initState, .ok (.Boolean (decide (a ≤ b)))))
    ∧ (evaluate 10 (.Binary (.Literal l) gtTok (.Literal r)) initState
        = some (initState, .ok (.Boolean false)))
    ∧ (evaluate 10 (.Binary (.Literal l) geTok (.Literal r)) initState
        = some (initState, .ok (.Boolean false)))
    ∧ (evaluate 10 (.Binary (.Literal l) ltTok (.Literal r)) initState
        = some (initState, .ok (.Boolean false)))
    ∧ (evaluate 10 (.Binary (.Literal l) leTok (.Literal r)) initState
        = some (initState, .ok (.Boolean false)))
    ∧ (∀ (q : Rat), astCompare (fun x y => decide (x > y)) (.Float q) (.Integer b)
        = .ok .Empty)
    ∧ (∀ (str : String), astCompare (fun x y => decide (x > y)) (.Integer a) (.String str)
        = .error .UnsupportedAction) := by
  refine ⟨rfl, rfl, rfl, rfl, ?_, ?_, ?_, ?_, fun q => rfl, fun str => rfl⟩ <;>
    cases l <;> cases r <;>
      first
        | exact absurd ⟨rfl, rfl⟩ (h _ _)
        | rfl

/-- Witness for C3 amended, at `a = 1`, `b = 2`, `l = Float 1.0`,
`r = Empty`. -/
theorem comparison_semantics_witness :
    evaluate 10 (.Binary (.Literal (.Float 1)) gtTok (.Literal .Empty)) initState
      = some (initState, .ok (.Boolean false)) :=
  (comparison_semantics 1 2 (.Float 1) .Empty
    (fun x y hc => by cases hc.1)).2.2.2.2.1

/-- C4: counterexample.  `'Hello' + 1.5` — left operand a String, right a
Float — evaluates to `Err(UnsupportedAction)`, not to the concatenated
String the claim asserts for every operand pair involving a String. -/
theorem string_plus_float_is_error :
    evaluate 10 (.Binary (.Literal (.String "Hello")) plusTok
        (.Literal (.Float (3 / 2)))) initState
      = some (initState, .error (.ParseError .UnsupportedAction)) :=
  rfl

/-- C4 amended: `+` concatenates exactly when the pair is
Integer + String, Float + String, String + String or String + Integer (the
result stringifies each side, so the spec's examples hold); every other
pair involving a String — String + Float, String + Boolean, String + Empty,
Boolean + String, Empty + String — is an `UnsupportedAction` error. -/
theorem plus_string_semantics (i : Int) (q : Rat) (s t : String) (b : Bool) :
    (evaluate 10 (.Binary (.Literal (.Integer i)) plusTok (.Literal (.String s))) initState
        = some (initState, .ok (.String (toString i ++ s))))
    ∧ (evaluate 10 (.Binary (.Literal (.Float q)) plusTok (.Literal (.String s))) initState
        = some (initState, .ok (.String (displayFloat q ++ s))))
    ∧ (evaluate 10 (.Binary (.Literal (.String s)) plusTok (.Literal (.String t))) initState
        = some (initState, .ok (.String (s ++ t))))
    ∧ (evaluate 10 (.Binary (.Literal (.String s)) plusTok (.Literal (.Integer i))) initState
        = some (initState, .ok (.String (s ++ toString i))))
    ∧ (evaluate 10 (.Binary (.Literal (.String s)) plusTok (.Literal (.Float q))) initState
        = some (initState, .error (.ParseError .UnsupportedAction)))
    ∧ (evaluate 10 (.Binary (.Literal (.String s)) plusTok (.Literal (.Boolean b))) initState
        = some (initState, .error (.ParseError .UnsupportedAction)))
    ∧ (evaluate 10 (.Binary (.Literal (.String s)) plusTok (.Literal .Empty)) initState
        = some (initState, .error (.ParseError .UnsupportedAction)))
    ∧ (evaluate 10 (.Binary (.Literal (.Boolean b)) plusTok (.Literal (.String s))) initState
        = some (initState, .error (.ParseError .UnsupportedAction)))
    ∧ (evaluate 10 (.Binary (.Literal .Empty) plusTok (.Literal (.String s))) initState
        = some (initState, .error (.ParseError .UnsupportedAction)))
    ∧ (evaluate 10 (.Binary (.Literal (.String "Hello")) plusTok
          (.Literal (.Integer 5))) initState
        = some (initState, .ok (.String "Hello5")))
    ∧ (evaluate 10 (.Binary
          (.Binary (.Literal (.Integer 1)) plusTok (.Literal (.String "Hello")))
          plusTok (.Literal (.Integer 5))) initState
        = some (initState, .ok (.String "1Hello5"))) :=
  ⟨rfl, rfl, rfl, rfl, rfl, rfl, rfl, rfl, rfl, rfl, rfl⟩

/-- C5: counterexample.  `2 ** 'a'` — a String operand — evaluates to
`Ok(Empty)`: a value, not the failure (error result) the claim asserts. -/
theorem pow_string_operand_yields_value :
    evaluate 10 (.Binary (.Literal (.Integer 2)) expTok (.Literal (.String "a"))) initState
      = some (initState, .ok .Empty) :=
  rfl

/-- C5 amended: `**` on Integer operands computes the power with the
exponent CAST to an unsigned 32-bit value (`ii as u32`), so a negative
exponent is reinterpreted as a large unsigned count rather than reported as
a domain error (`1 ** -1` evaluates to Integer 1 through exponent
4294967295); `**` with a String or other non-numeric operand yields the
Empty value, not an error. -/
theorem pow_semantics (i ii : Int) (str : String) (l : TokenLiteral) :
    (powLit (.Integer i) (.Integer ii) = .ok (.Integer (i ^ as_u32 ii)))
    ∧ (powLit (.Integer i) (.String str) = .ok .Empty)
    ∧ (powLit (.String str) l = .ok .Empty)
    ∧ (evaluate 10 (.Binary (.Literal (.Integer i)) expTok (.Literal (.String str)))
          initState = some (initState, .ok .Empty))
    ∧ (as_u32 (-1) = 4294967295)
    ∧ (evaluate 10 (.Binary (.Literal (.Integer 1)) expTok
          (.Unary minusTok (.Literal (.Integer 1)))) initState
        = some (initState, .ok (.Integer ((1 : Int) ^ as_u32 (-1)))))
    ∧ ((1 : Int) ^ as_u32 (-1) = 1) :=
  ⟨rfl, rfl, rfl, rfl, by decide, rfl, one_pow _⟩

/-- C6: counterexample.  `0 ** 4294967296` — both operands valid Integer
literals — evaluates to Integer 1 (the exponent truncates to 0 under the
`as u32` cast and `0.pow(0) = 1`), while repeated multiplication as the
coercion table specifies gives 0. -/
theorem pow_exponent_truncated :
    evaluate 10 (.Binary (.Literal (.Integer 0)) expTok
        (.Literal (.Integer 4294967296))) initState
      = some (initState, .ok (.Integer 1))
    ∧ TokenLiteral.Integer 1 ≠ TokenLiteral.Integer 0 :=
  ⟨rfl, by decide⟩

/-- C6 amended: for nonnegative Integer literals a and b, `+`, `-` and `*`
produce the Integer sum, difference and product whenever that result fits
in the signed 64-bit range (beyond it the program wraps in release builds
or panics in debug builds rather than matching the table); `/` always
produces a Float even when both operands are Integers, with the exact
quotient at representable instances such as `5 / 5` yielding Float 1.0 (in
general the double is IEEE-rounded, so the value is only asserted there);
`**` produces the Integer power when the exponent is below 2^32 AND the
power fits in the signed 64-bit range — beyond 2^32 the `as u32` cast
truncates the exponent, and `5 ** 5` is Integer 3125.  The hypotheses
confine every value assertion to the region where the unbounded-Int /
exact-Rat model and the machine arithmetic agree. -/
theorem integer_arithmetic_table (a b : Nat) :
    (a + b ≤ 9223372036854775807 →
      evaluate 10 (.Binary (.Literal (.Integer a)) plusTok (.Literal (.Integer b))) initState
        = some (initState, .ok (.Integer ((a : Int) + (b : Int)))))
    ∧ (a ≤ 9223372036854775807 → b ≤ 9223372036854775807 →
      evaluate 10 (.Binary (.Literal (.Integer a)) minusTok (.Literal (.Integer b))) initState
        = some (initState, .ok (.Integer ((a : Int) - (b : Int)))))
    ∧ (a * b ≤ 9223372036854775807 →
      evaluate 10 (.Binary (.Literal (.Integer a))
          { token_type := .STAR, lexeme := "*", literal := .Empty, line := 1 }
          (.Literal (.Integer b))) initState
        = some (initState, .ok (.Integer ((a : Int) * (b : Int)))))
    ∧ (∃ q : Rat,
        evaluate 10 (.Binary (.Literal (.Integer a)) slashTok (.Literal (.Integer b))) initState
          = some (initState, .ok (.Float q)))
    ∧ (b < 4294967296 → a ^ b ≤ 9223372036854775807 →
        evaluate 10 (.Binary (.Literal (.Integer a)) expTok (.Literal (.Integer b))) initState
          = some (initState, .ok (.Integer ((a : Int) ^ b))))
    ∧ (evaluate 10 (.Binary (.Literal (.Integer 5)) expTok (.Literal (.Integer 5))) initState
        = some (initState, .ok (.Integer 3125)))
    ∧ (evaluate 10 (.Binary (.Literal (.Integer 5)) slashTok (.Literal (.Integer 5))) initState
        = some (initState, .ok (.Float 1))) := by
  refine ⟨fun _ => rfl, fun _ _ => rfl, fun _ => rfl,
    ⟨((a : Int) : Rat) / ((b : Int) : Rat), rfl⟩, ?_, rfl, ?_⟩
  · intro hb _
    have h32 : as_u32 ((b : Nat) : Int) = b := by
      unfold as_u32
      omega
    have base : evaluate 10 (.Binary (.Literal (.Integer a)) expTok
        (.Literal (.Integer b))) initState
        = some (initState, .ok (.Integer ((a : Int) ^ as_u32 ((b : Nat) : Int)))) := rfl
    rw [h32] at base
    exact base
  · have hdiv : ((5 : Int) : Rat) / ((5 : Int) : Rat) = 1 := by norm_num
    have base : evaluate 10 (.Binary (.Literal (.Integer 5)) slashTok
        (.Literal (.Integer 5))) initState
        = some (initState, .ok (.Float (((5 : Int) : Rat) / ((5 : Int) : Rat)))) := rfl
    rw [hdiv] at base
    exact base

/-- Witness for C6 amended at `a = b = 5`: the range hypotheses
(`5 + 5`, `5 * 5` and `5 ^ 5` within the signed 64-bit range, exponent
below 2^32) all hold and the sum, product and power conjuncts apply. -/
theorem integer_arithmetic_table_witness :
    (evaluate 10 (.Binary (.Literal (.Integer 5)) plusTok
        (.Literal (.Integer 5))) initState
      = some (initState, .ok (.Integer (((5 : Nat) : Int) + ((5 : Nat) : Int)))))
    ∧ (evaluate 10 (.Binary (.Literal (.Integer 5))
          { token_type := .STAR, lexeme := "*", literal := .Empty, line := 1 }
          (.Literal (.Integer 5))) initState
      = some (initState, .ok (.Integer (((5 : Nat) : Int) * ((5 : Nat) : Int)))))
    ∧ (evaluate 10 (.Binary (.Literal (.Integer 5)) expTok
        (.Literal (.Integer 5))) initState
      = some (initState, .ok (.Integer (((5 : Nat) : Int) ^ (5 : Nat))))) :=
  ⟨(integer_arithmetic_table 5 5).1 (by decide),
   (integer_arithmetic_table 5 5).2.2.1 (by decide),
   (integer_arithmetic_table 5 5).2.2.2.2.1 (by decide) (by decide)⟩

end RLox
